import Mathlib

/-!
# Verification of the Slack approver / daemon pair

A shallow embedding of the core logic of `claude-slack-approver.py` and
`claude-slack-daemon.py`, together with theorems settling the spec claims.

Conventions used throughout the embedding:
* Python strings are Lean `String`s; the handful of Python string operations
  the code relies on (`strip`, `lower`, `startswith`, `replace`, slicing)
  are re-implemented over `List Char` so that every definition reduces in
  the kernel.  `str.strip()` strips the ASCII whitespace characters
  (space, tab, newline, carriage return, vertical tab, form feed); the
  Unicode cases never arise in the rule/keyword data.
* Python `None`-or-string values are `Option String` (or, where the code
  only ever tests truthiness, a plain `String` with `""` standing for the
  falsy values `None` and `""`); each such spot is noted locally.
* `re.search(pattern, s)` for a rule pattern is an opaque match predicate
  `String → Bool` ("does the pattern match anywhere in `s`"): the regex
  engine is an external library, and the rules file contents are data, not
  code of this repository.  Concrete instantiations in witnesses use plain
  substring matchers.
* Wall-clock time is an abstract instant: `Int` seconds for the session
  table (`time.time()` ordering/arithmetic is all the code uses), and a
  cycle counter for the approval polling loop (each iteration sleeps
  `POLL_INTERVAL` seconds and the checks themselves are instantaneous, so
  the `while time.time() - start < TIMEOUT` loop runs exactly
  `TIMEOUT / POLL_INTERVAL` iterations).
-/

/-! ## Python string primitives -/

/-- The characters stripped by Python `str.strip()` (ASCII fragment). -/
def isPySpace (c : Char) : Bool :=
  c == ' ' || c == '\t' || c == '\n' || c == '\x0d' || c == '\x0b' || c == '\x0c'

/-- Python `str.strip()`. -/
def pyStrip (s : String) : String :=
  String.mk (((s.data.dropWhile isPySpace).reverse.dropWhile isPySpace).reverse)

/-- ASCII lower-casing of one character (the fragment of `str.lower()` the
keyword comparison needs; all keywords are ASCII). -/
def lowerChar (c : Char) : Char :=
  if 'A' ≤ c && c ≤ 'Z' then Char.ofNat (c.toNat + 32) else c

/-- Python `str.lower()` (ASCII fragment). -/
def pyLower (s : String) : String :=
  String.mk (s.data.map lowerChar)

/-- Python `a.startswith(b)`. -/
def pyStartsWith (a b : String) : Bool :=
  b.data.isPrefixOf a.data

/-- Python slicing `s[:n]` (by characters). -/
def pyTake (s : String) (n : Nat) : String :=
  String.mk (s.data.take n)

/-- Worker for `pyReplace`: replace every (leftmost, non-overlapping)
occurrence of `p` by `r`.  Structural recursion on a fuel argument (one
unit per consumed character, so `l.length` fuel always suffices) keeps the
definition kernel-reducible. -/
def replAux (p r : List Char) : Nat → List Char → List Char
  | _, [] => []
  | 0, l => l
  | fuel + 1, c :: rest =>
    if p.isPrefixOf (c :: rest) then
      r ++ replAux p r fuel (rest.drop (p.length - 1))
    else
      c :: replAux p r fuel rest

/-- Python `s.replace(pat, rep)` (all occurrences, left to right,
non-overlapping).  The empty-pattern case is returned unchanged; the code
only ever replaces the non-empty `FOOTER_TEXT`. -/
def pyReplace (s pat rep : String) : String :=
  match pat.data with
  | [] => s
  | _ :: _ => String.mk (replAux pat.data rep.data s.data.length s.data)

/-- Does `pat` occur anywhere in `l`?  (Used to build concrete "regex"
match predicates for literal patterns in witnesses.) -/
def listContainsSub (pat : List Char) : List Char → Bool
  | [] => pat.isPrefixOf ([] : List Char)
  | c :: rest => pat.isPrefixOf (c :: rest) || listContainsSub pat rest

/-- `re.search` for a pattern with no regex metacharacters: plain
substring search.  Witness-side instantiation of a match predicate. -/
def reSearchLit (pat : String) (s : String) : Bool :=
  listContainsSub pat.data s.data

/-! ## Command classification (`claude-slack-approver.py`, Phase 1) -/

/-- The four rule lists `_classify_single` reads from the parsed
`command-rules.json`: `rules["deny"]["patterns"]`, `rules["risky"]["prefixes"]`,
`rules["risky"]["patterns"]`, `rules["safe"]["prefixes"]`.  A pattern is its
`re.search` match predicate; the safe and risky literal lists are plain
strings matched by equality / prefix-plus-space, exactly as the code does. -/
structure CommandRules where
  denyPatterns : List (String → Bool)
  riskyPrefixes : List String
  riskyPatterns : List (String → Bool)
  safePrefixes : List String

/-- Worker for `_split_chained_commands`: split the character stream on
`&&`, `||`, `;`, `|` (the alternatives of `re.split(r'\s*(?:&&|\|\||[;|])\s*', cmd)`,
tried in the same order; the surrounding `\s*` is absorbed by the per-segment
`strip()` applied afterwards). -/
def splitChainAux : List Char → List Char → List (List Char)
  | [], acc => [acc.reverse]
  | '&' :: '&' :: rest, acc => acc.reverse :: splitChainAux rest []
  | '|' :: '|' :: rest, acc => acc.reverse :: splitChainAux rest []
  | ';' :: rest, acc => acc.reverse :: splitChainAux rest []
  | '|' :: rest, acc => acc.reverse :: splitChainAux rest []
  | c :: rest, acc => splitChainAux rest (c :: acc)

/-- `_split_chained_commands(cmd)`: split on shell operators, strip each
segment, keep the non-empty ones. -/
def _split_chained_commands (cmd : String) : List String :=
  ((splitChainAux cmd.data []).map (fun l => pyStrip (String.mk l))).filter
    (fun s => s != "")

/-- `_classify_single(cmd, rules)`: deny patterns, then risky prefixes,
then risky patterns, then safe prefixes, then the `risky` default. -/
def _classify_single (cmd : String) (rules : CommandRules) : String :=
  let s := pyStrip cmd
  if rules.denyPatterns.any (fun p => p s) then "deny"
  else if rules.riskyPrefixes.any (fun pf => s == pf || pyStartsWith s (pf ++ " ")) then "risky"
  else if rules.riskyPatterns.any (fun p => p s) then "risky"
  else if rules.safePrefixes.any (fun pf => s == pf || pyStartsWith s (pf ++ " ")) then "safe"
  else "risky"

/-- The segment loop of `classify_command`: `worst` starts at `"safe"`,
a `"deny"` rating returns immediately, a `"risky"` rating lowers `worst`. -/
def classifyLoop (rules : CommandRules) : List String → String → String
  | [], worst => worst
  | seg :: rest, worst =>
    let rating := _classify_single seg rules
    if rating == "deny" then "deny"
    else if rating == "risky" then classifyLoop rules rest "risky"
    else classifyLoop rules rest worst

/-- `classify_command(cmd)`.  The `Option CommandRules` argument is the
result of `load_command_rules()`: `none` when the rules file is missing or
not valid JSON, in which case the function returns `"risky"` before ever
splitting the command. -/
def classify_command (rulesOpt : Option CommandRules) (cmd : String) : String :=
  match rulesOpt with
  | none => "risky"
  | some rules => classifyLoop rules (_split_chained_commands cmd) "safe"

/-- Written from the spec's wording of the per-segment order (claim C3):
"(1) if any deny pattern matches anywhere in the segment → deny; (2) else if
the segment equals or begins with (followed by a space) any risky literal
prefix → risky; (3) else if any risky pattern matches → risky; (4) else if
the segment equals or begins with any safe literal prefix → safe;
(5) else default → risky"; the safe set consulted by prefix matching only. -/
def classifySingleSpec (cmd : String) (rules : CommandRules) : String :=
  let s := pyStrip cmd
  if (rules.denyPatterns.find? (fun p => p s)).isSome then "deny"
  else if (rules.riskyPrefixes.find? (fun pf => s == pf || pyStartsWith s (pf ++ " "))).isSome then "risky"
  else if (rules.riskyPatterns.find? (fun p => p s)).isSome then "risky"
  else if (rules.safePrefixes.find? (fun pf => s == pf || pyStartsWith s (pf ++ " "))).isSome then "safe"
  else "risky"

/-- A concrete rule set used by witnesses (literal "regexes" only). -/
def rulesEx : CommandRules where
  denyPatterns := [reSearchLit "rm -rf", reSearchLit "mkfs"]
  riskyPrefixes := ["sudo", "pip install"]
  riskyPatterns := [reSearchLit "curl"]
  safePrefixes := ["git", "ls", "cat"]

/-! ## Reaction and thread-reply checks (`claude-slack-approver.py`, Phase 2) -/

/-- `APPROVE_REACTIONS` / `DENY_REACTIONS` (Python sets; only membership is
tested, so list membership is an exact model). -/
def APPROVE_REACTIONS : List String := ["+1", "thumbsup"]

/-- See `APPROVE_REACTIONS`. -/
def DENY_REACTIONS : List String := ["-1", "thumbsdown"]

/-- `APPROVE_KEYWORDS` (a Python set; every keyword maps to the same
outcome, so iteration order is irrelevant and list order is kept from the
source). -/
def APPROVE_KEYWORDS : List String :=
  ["ok", "okay", "approve", "approved", "lgtm", "yes", "go ahead", "go",
   "yep", "yup", "sure", "do it", "proceed", "ship it", "y"]

/-- `FOOTER_TEXT`. -/
def FOOTER_TEXT : String :=
  ":thumbsup: = approve | :thumbsdown: = deny | _Reply in thread with feedback_"

/-- One reaction on the request message (`reaction.get("name", "")`). -/
structure Reaction where
  name : String
deriving DecidableEq

/-- The part of `name` before the first `"::"`: Python
`name.split("::")[0]`, e.g. `"+1::skin-tone-2" → "+1"`. -/
def beforeSkinTone : List Char → List Char
  | [] => []
  | ':' :: ':' :: _ => []
  | c :: rest => c :: beforeSkinTone rest

/-- The loop body of `check_reactions` over the fetched reaction list
(the `resp.get("ok")`/fetch-failure guard lives in the polling loop's
per-cycle observation). -/
def check_reactions (rs : List Reaction) : Option String :=
  match rs with
  | [] => none
  | r :: rest =>
    let nm := String.mk (beforeSkinTone r.name.data)
    if APPROVE_REACTIONS.contains nm then some "allow"
    else if DENY_REACTIONS.contains nm then some "deny"
    else check_reactions rest

/-- One message of a `conversations.replies` response:
`msg.get("user", "")`, `msg.get("subtype")`, `msg.get("text", "")`. -/
structure SlackMsg where
  user : String
  subtype : Option String
  text : String
deriving DecidableEq

/-- `if bot_user_id and user == bot_user_id`: the bot id is `none` when
`get_bot_user_id()` returned a falsy value (`None` or `""`). -/
def skipAsBot (botId : Option String) (m : SlackMsg) : Bool :=
  match botId with
  | some b => m.user == b
  | none => false

/-- The keyword test of `check_thread_replies` applied to the lowered
reply text: equal to a keyword, or keyword followed by a space or comma. -/
def isApprovalText (tl : String) : Bool :=
  APPROVE_KEYWORDS.any fun k =>
    tl == k || pyStartsWith tl (k ++ " ") || pyStartsWith tl (k ++ ",")

/-- The reply loop of `check_thread_replies` over `messages[1:]`. -/
def repliesScan (botId : Option String) : List SlackMsg → Option String × Option String
  | [] => (none, none)
  | m :: rest =>
    if skipAsBot botId m then repliesScan botId rest
    else if m.subtype == some "bot_message" then repliesScan botId rest
    else
      let text := pyStrip m.text
      if text == "" then repliesScan botId rest
      else if isApprovalText (pyStrip (pyLower text)) then (some "allow", some text)
      else (some "deny", some text)

/-- `check_thread_replies(msg_ts, bot_user_id)` applied to the fetched
message list: skip the first message (the original request), then scan.
Returns `(some "allow", text)`, `(some "deny", text)` or `(none, none)`,
mirroring the Python tuple. -/
def check_thread_replies (messages : List SlackMsg) (botId : Option String) :
    Option String × Option String :=
  repliesScan botId (messages.drop 1)

/-- A human (non-skipped, non-empty) reply, as the scan filters them. -/
def qualifiesHuman (botId : Option String) (m : SlackMsg) : Bool :=
  !skipAsBot botId m && !(m.subtype == some "bot_message") && !(pyStrip m.text == "")

/-! ## The approval polling loop (`main`, Phase 2)

The loop is modelled as a function of a *schedule*: cycle `i`'s
observations are the data the two Slack fetches of that cycle would
return (`none` standing for a failed fetch, i.e. `resp.get("ok")` false
or a missing `reactions`/`messages` field handled by the Python helpers
returning no signal).  Side effects are collected in order into a trace:
`chat.update` calls and `clear_pending()` (deleting
`/tmp/claude-slack-pending.json`). -/

/-- `POLL_INTERVAL = 2` (seconds between polls). -/
def POLL_INTERVAL : Nat := 2

/-- `TIMEOUT = 300` (5 minutes total). -/
def TIMEOUT : Nat := 300

/-- The number of iterations of `while time.time() - start < TIMEOUT`
under the idealized time model (each iteration costs exactly the
`time.sleep(POLL_INTERVAL)` it begins with): 150. -/
def numPollCycles : Nat := TIMEOUT / POLL_INTERVAL

/-- What one polling cycle observes from the two channels. -/
structure CycleObs where
  reactions : Option (List Reaction)
  replies : Option (List SlackMsg)

/-- The durable side effects of the approval session. -/
inductive Effect where
  | updateMsg (text : String)
  | clearPending
deriving DecidableEq

/-- The terminal verdicts of the approval session, with the
`permissionDecisionReason` carried on allow/deny. -/
inductive Outcome where
  | allowed (reason : String)
  | denied (reason : String)
  | timedOut
deriving DecidableEq

/-- `check_reactions` for cycle observations (fetch failure → no signal). -/
def reactionDecision (obs : CycleObs) : Option String :=
  match obs.reactions with
  | none => none
  | some rs => check_reactions rs

/-- `check_thread_replies` for cycle observations. -/
def replyDecision (botId : Option String) (obs : CycleObs) : Option String × Option String :=
  match obs.replies with
  | none => (none, none)
  | some ms => check_thread_replies ms botId

/-- Does cycle `obs` produce any decision (either channel)? -/
def cycleDecides (botId : Option String) (obs : CycleObs) : Bool :=
  reactionDecision obs == some "allow" || reactionDecision obs == some "deny" ||
  (replyDecision botId obs).1 == some "allow" || (replyDecision botId obs).1 == some "deny"

/-- The Phase 2 polling loop of `main`: cycle counter `i`, remaining
cycles `fuel`.  Each cycle checks reactions first, then thread replies,
in the source's branch order; on a decision it rewrites the footer of the
posted message, clears the pending file and exits; when the window is
exhausted it rewrites the footer to the terminal-fallback text and exits
*without* clearing the pending file. -/
def pollLoop (botId : Option String) (messageText : String) (sched : Nat → CycleObs) :
    Nat → Nat → Outcome × List Effect
  | _, 0 =>
    (.timedOut,
     [.updateMsg (pyReplace messageText FOOTER_TEXT ":hourglass: *Waiting for terminal approval...*")])
  | i, fuel + 1 =>
    let obs := sched i
    let decision := reactionDecision obs
    if decision == some "allow" then
      (.allowed "Approved via Slack",
       [.updateMsg (pyReplace messageText FOOTER_TEXT ":white_check_mark: *Approved via Slack*"),
        .clearPending])
    else if decision == some "deny" then
      (.denied "Denied via Slack",
       [.updateMsg (pyReplace messageText FOOTER_TEXT ":no_entry_sign: *Denied via Slack*"),
        .clearPending])
    else
      let rr := replyDecision botId obs
      if rr.1 == some "allow" then
        let rt := rr.2.getD ""
        let reason :=
          if rt != "" then "Approved via Slack thread. User feedback: " ++ rt
          else "Approved via Slack thread"
        (.allowed reason,
         [.updateMsg (pyReplace messageText FOOTER_TEXT ":white_check_mark: *Approved via thread reply*"),
          .clearPending])
      else if rr.1 == some "deny" then
        let rt := rr.2.getD ""
        (.denied ("User feedback: " ++ rt),
         [.updateMsg (pyReplace messageText FOOTER_TEXT (":speech_balloon: *Denied with feedback:* " ++ rt)),
          .clearPending])
      else
        pollLoop botId messageText sched (i + 1) fuel

/-- The whole `AwaitingDecision` phase: run the polling loop over the full
window. -/
def runApproval (botId : Option String) (messageText : String) (sched : Nat → CycleObs) :
    Outcome × List Effect :=
  pollLoop botId messageText sched 0 numPollCycles

/-! ## Session storage (`claude-slack-daemon.py`) -/

/-- `SESSION_MAX_AGE = 86400` (24 hours). -/
def SESSION_MAX_AGE : Int := 86400

/-- One value of the on-disk `sessions.json` object:
`{"session_id": ..., "project_dir": ..., "last_active": ...}`.
`last_active` is a `time.time()` instant; the code only orders and
subtracts these, so an `Int` stands in for the float. -/
structure SessionInfo where
  session_id : String
  project_dir : String
  last_active : Int
deriving DecidableEq

/-- The parsed `sessions.json` object, as an insertion-ordered key-value
list (a faithful image of a Python dict: keys unique in any table the code
itself produces, updates in place, new keys appended). -/
abbrev Sessions := List (String × SessionInfo)

/-- `sessions[thread_ts] = info` on a dict: replace the first occurrence
in place, else append. -/
def setEntry : Sessions → String → SessionInfo → Sessions
  | [], k, v => [(k, v)]
  | (k', v') :: rest, k, v =>
    if k' == k then (k, v) :: rest else (k', v') :: setEntry rest k v

/-- `set_session(thread_ts, session_id, project_dir)` under the lock:
write the entry with `last_active = now`, then drop every entry whose
`last_active` is not strictly newer than `now - SESSION_MAX_AGE`, then
save.  (The code calls `time.time()` twice in the body; the model uses a
single instant `now` for both.) -/
def set_session (sessions : Sessions) (thread_ts session_id project_dir : String)
    (now : Int) : Sessions :=
  let updated := setEntry sessions thread_ts ⟨session_id, project_dir, now⟩
  let cutoff := now - SESSION_MAX_AGE
  updated.filter fun kv => decide (kv.2.last_active > cutoff)

/-- `touch_session(thread_ts)` under the lock: if the key is present,
set its `last_active` to `now` and save; no eviction pass. -/
def touch_session (sessions : Sessions) (thread_ts : String) (now : Int) : Sessions :=
  if (sessions.find? fun kv => kv.1 == thread_ts).isSome then
    sessions.map fun kv =>
      if kv.1 == thread_ts then (kv.1, { kv.2 with last_active := now }) else kv
  else sessions

/-- A concrete table with one fresh and one stale entry (the stale one is
older than `SESSION_MAX_AGE` relative to instant `1000000`). -/
def staleSessions : Sessions :=
  [("t1", ⟨"sid1", "/proj/one", 1000000⟩), ("t0", ⟨"sid0", "/proj/zero", 0⟩)]

/-! ## Agent invocation (`run_claude`) and the continue-session path -/

/-- The fields of the parsed `--output-format json` object that
`run_claude` reads.  `session_id` distinguishes an absent key (outer
`none`, making `output.get("session_id", session_id)` fall back to the old
id) from a present key (whose value may be the empty string, standing for
both `""` and JSON `null` — the code only ever tests truthiness).
`result`/`content`/`text` are `none` when absent; their defaults are `""`. -/
structure AgentJson where
  session_id : Option String
  result : Option String
  content : Option String
  text : Option String
deriving DecidableEq

/-- Stand-in for `json.dumps(output, indent=2)`: some fallback rendering
of the object (its exact formatting is external-library behavior the
claims do not touch). -/
def dumpAgentJson (o : AgentJson) : String :=
  "\x7b \"session_id\": \"" ++ (o.session_id.getD "") ++ "\", \"result\": \"" ++
    (o.result.getD "") ++ "\", \"content\": \"" ++ (o.content.getD "") ++
    "\", \"text\": \"" ++ (o.text.getD "") ++ "\" \x7d"

/-- How one `subprocess.run` of the `claude` CLI went, up to the external
pieces (the process itself and `json.loads`): the three exception arms of
the `try`, or a completed run with its stdout/stderr and — since the JSON
parser is an external library — the parse of the stripped stdout
(`none` = `json.JSONDecodeError`). -/
inductive CLIResult where
  | timeoutExpired
  | fileNotFound
  | raisedExc (msg : String)
  | ran (stdout stderr : String) (parsed : Option AgentJson)
deriving DecidableEq

/-- `run_claude(prompt, project_dir, session_id, thread_ts)`, from the
`try` onwards (the prompt wrapping and command construction feed the
subprocess, which is abstracted into `res`).  Returns
`(response_text, new_session_id)`; session ids are plain strings with `""`
standing for Python's falsy `None`/`""`. -/
def run_claude (res : CLIResult) (session_id : String) : String × String :=
  match res with
  | .timeoutExpired => (":warning: Claude timed out after 10 minutes.", session_id)
  | .fileNotFound => (":x: `claude` CLI not found. Is it installed and on PATH?", session_id)
  | .raisedExc m => (":x: Error running Claude: " ++ m, session_id)
  | .ran stdout stderr parsed =>
    let so := pyStrip stdout
    if so == "" then
      let se := pyStrip stderr
      if se != "" then
        (":warning: Claude returned no output.\n```\n" ++ pyTake se 2000 ++ "\n```", session_id)
      else (":warning: Claude returned no output.", session_id)
    else
      match parsed with
      | none => (pyTake so 4000, session_id)
      | some o =>
        let nsid := match o.session_id with
          | none => session_id
          | some v => v
        let rt0 := o.result.getD ""
        let rt1 := if rt0 == "" then o.content.getD (o.text.getD "") else rt0
        let rt2 := if rt1 == "" then pyTake (dumpAgentJson o) 4000 else rt1
        (rt2, nsid)

/-- Which session-table write the dispatcher performs after a turn. -/
inductive TableOp where
  | upsert (thread_ts session_id project_dir : String)
  | touch (thread_ts : String)
deriving DecidableEq

/-- The continue-existing-session arm of `_process_message` (thread reply
with a stored session): run the agent with the stored id, then
`set_session` if the returned id is truthy, else `touch_session`.
Returns the response text and the table write performed. -/
def continue_existing (res : CLIResult) (info : SessionInfo) (thread_ts : String) :
    String × TableOp :=
  let out := run_claude res info.session_id
  if out.2 != "" then (out.1, .upsert thread_ts out.2 info.project_dir)
  else (out.1, .touch thread_ts)

/-! ## Dispatcher single-flight (`handle_message`)

`handle_message` brackets `_process_message` with a lock-guarded
membership set `_active_threads`: the check-and-insert runs atomically
under `_active_threads_lock`, as does the `finally` discard.  For one
thread identity `T` and two inbound events (handlers `A` and `B`, the
scenario of the claim) the interleaving semantics is a step relation over
the phases of each handler; `active` is `T ∈ _active_threads`, and one
agent invocation is counted when a handler's `_process_message` body runs. -/

/-- The phases of one handler for thread `T`:
`ready` — before the lock-guarded check-and-insert;
`inside` — inserted, `_process_message` not yet run;
`invoked` — `_process_message` ran (one agent invocation counted);
`done` — the `finally` discard ran;
`dropped` — the check found `T` already active and returned. -/
inductive HPhase where
  | ready
  | inside
  | invoked
  | done
  | dropped
deriving DecidableEq

/-- Is the handler between its successful insert and its discard? -/
def isInside : HPhase → Bool
  | .inside => true
  | .invoked => true
  | _ => false

/-- One agent invocation happens at the `inside → invoked` step. -/
def invCount : HPhase → Nat
  | .invoked => 1
  | .done => 1
  | _ => 0

/-- The shared state of the two-handler scenario. -/
structure DispatchState where
  active : Bool
  a : HPhase
  b : HPhase
  invocations : Nat
deriving DecidableEq

/-- One atomic step of handler `A` (`who = true`) or `B` (`who = false`):
the lock-guarded check-and-insert, the `_process_message` body, or the
lock-guarded discard.  Finished handlers do nothing. -/
def dstep (s : DispatchState) (who : Bool) : DispatchState :=
  match (if who then s.a else s.b) with
  | .ready =>
    if s.active then
      if who then { s with a := .dropped } else { s with b := .dropped }
    else
      if who then { s with a := .inside, active := true }
      else { s with b := .inside, active := true }
  | .inside =>
    if who then { s with a := .invoked, invocations := s.invocations + 1 }
    else { s with b := .invoked, invocations := s.invocations + 1 }
  | .invoked =>
    if who then { s with a := .done, active := false }
    else { s with b := .done, active := false }
  | .done => s
  | .dropped => s

/-- Both handlers pending, `T` not active, nothing invoked. -/
def dinit : DispatchState := ⟨false, .ready, .ready, 0⟩

/-- Run a whole interleaving (scheduler choices, `true` = step `A`). -/
def drun (sched : List Bool) : DispatchState :=
  sched.foldl dstep dinit

/-- The inductive invariant of the two-handler system: `active` mirrors
membership, at most one handler is inside the guarded section, and the
invocation counter counts the handlers whose body has run. -/
def dinv (s : DispatchState) : Prop :=
  s.active = (isInside s.a || isInside s.b) ∧
  ¬(isInside s.a = true ∧ isInside s.b = true) ∧
  s.invocations = invCount s.a + invCount s.b

/-! ## Helper lemmas -/

set_option maxRecDepth 8000

theorem find_isSome_eq_any {α : Type} (p : α → Bool) :
    ∀ l : List α, (l.find? p).isSome = l.any p := by
  intro l
  induction l with
  | nil => rfl
  | cons a t ih =>
    by_cases h : p a = true <;> simp [List.find?_cons, List.any_cons, h, ih]

theorem classifyLoop_deny_mem (rules : CommandRules) (seg : String)
    (h : _classify_single seg rules = "deny") :
    ∀ (l₁ l₂ : List String) (w : String),
      classifyLoop rules (l₁ ++ seg :: l₂) w = "deny" := by
  intro l₁
  induction l₁ with
  | nil => intro l₂ w; simp [classifyLoop, h]
  | cons s t ih =>
    intro l₂ w
    simp only [List.cons_append, classifyLoop]
    by_cases hd : (_classify_single s rules == "deny") = true
    · simp [hd]
    · by_cases hr : (_classify_single s rules == "risky") = true <;>
        simp [hd, hr, ih]

theorem classifyLoop_stops_at_deny (rules : CommandRules) (seg : String)
    (h : _classify_single seg rules = "deny") :
    ∀ (l₁ l₂ : List String) (w : String),
      classifyLoop rules (l₁ ++ seg :: l₂) w = classifyLoop rules (l₁ ++ [seg]) w := by
  intro l₁
  induction l₁ with
  | nil => intro l₂ w; simp [classifyLoop, h]
  | cons s t ih =>
    intro l₂ w
    simp only [List.cons_append, classifyLoop]
    by_cases hd : (_classify_single s rules == "deny") = true
    · simp [hd]
    · by_cases hr : (_classify_single s rules == "risky") = true <;>
        simp [hd, hr, ih]

/-! ## Claims about the command classifier -/

/-- C1: a command with any deny-matching segment classifies `"deny"` as a
whole, whatever the other (earlier or later) segments are, and the segment
loop short-circuits: its result over the full segment list equals its
result over the prefix ending at the deny-rated segment, so no later
segment is ever consulted. -/
theorem classify_command_deny_short_circuits
    (rules : CommandRules) (cmd : String) (l₁ l₂ : List String) (seg : String)
    (hsplit : _split_chained_commands cmd = l₁ ++ seg :: l₂)
    (hdeny : (rules.denyPatterns.any fun p => p (pyStrip seg)) = true) :
    classify_command (some rules) cmd = "deny" ∧
    ∀ w, classifyLoop rules (l₁ ++ seg :: l₂) w = classifyLoop rules (l₁ ++ [seg]) w := by
  have hseg : _classify_single seg rules = "deny" := by
    simp [_classify_single, hdeny]
  constructor
  · simp [classify_command, hsplit, classifyLoop_deny_mem rules seg hseg]
  · intro w
    exact classifyLoop_stops_at_deny rules seg hseg l₁ l₂ w

/-- Witness for C1 at a concrete rule set and command. -/
theorem classify_command_deny_witness :
    (_split_chained_commands "git status && rm -rf /tmp/x" =
      ["git status"] ++ "rm -rf /tmp/x" :: []) ∧
    (rulesEx.denyPatterns.any fun p => p (pyStrip "rm -rf /tmp/x")) = true ∧
    classify_command (some rulesEx) "git status && rm -rf /tmp/x" = "deny" :=
  ⟨by decide, by decide,
   (classify_command_deny_short_circuits rulesEx "git status && rm -rf /tmp/x"
      ["git status"] [] "rm -rf /tmp/x" (by decide) (by decide)).1⟩

/-- C2: with an unloadable rule set (`load_command_rules()` returned
`None`), `classify_command` returns `"risky"` for every command — never
`"safe"`, never `"deny"`. -/
theorem classify_command_fail_closed (cmd : String) :
    classify_command none cmd = "risky" := rfl

/-- C3: a single segment is classified in exactly the spec's order — deny
patterns anywhere in the segment, then risky literal prefixes (equality or
prefix followed by a space), then risky patterns, then safe literal
prefixes (prefix matching only, never a pattern), then the `"risky"`
default. -/
theorem classify_single_follows_spec_order (cmd : String) (rules : CommandRules) :
    _classify_single cmd rules = classifySingleSpec cmd rules := by
  simp only [_classify_single, classifySingleSpec, find_isSome_eq_any]

/-- C10: a command whose segments are all empty after splitting and
stripping (e.g. only whitespace or only shell separators) never enters the
segment loop, so `classify_command` returns the initial worst value
`"safe"`. -/
theorem classify_command_empty_segments_safe
    (rules : CommandRules) (cmd : String)
    (h : _split_chained_commands cmd = []) :
    classify_command (some rules) cmd = "safe" := by
  simp [classify_command, h, classifyLoop]

/-- Witness for C10: `" ; | "` is non-empty, splits to no segments, and is
auto-classified `"safe"` under a rule set with a populated safe list. -/
theorem classify_command_empty_segments_witness :
    _split_chained_commands " ; | " = [] ∧
    classify_command (some rulesEx) " ; | " = "safe" :=
  ⟨by decide, classify_command_empty_segments_safe rulesEx " ; | " (by decide)⟩

/-! ## Claim about thread-reply checking -/

theorem repliesScan_eq_find (botId : Option String) :
    ∀ ms : List SlackMsg,
      repliesScan botId ms =
        match ms.find? (qualifiesHuman botId) with
        | none => (none, none)
        | some m =>
          if isApprovalText (pyStrip (pyLower (pyStrip m.text))) then
            (some "allow", some (pyStrip m.text))
          else (some "deny", some (pyStrip m.text)) := by
  intro ms
  induction ms with
  | nil => rfl
  | cons m rest ih =>
    by_cases h1 : skipAsBot botId m = true
    · simp [repliesScan, List.find?_cons, qualifiesHuman, h1, ih]
    · by_cases h2 : (m.subtype == some "bot_message") = true
      · simp [repliesScan, List.find?_cons, qualifiesHuman, h1, h2, ih]
      · by_cases h3 : (pyStrip m.text == "") = true
        · simp [repliesScan, List.find?_cons, qualifiesHuman, h1, h2, h3, ih]
        · by_cases h4 : isApprovalText (pyStrip (pyLower (pyStrip m.text))) = true <;>
            simp [repliesScan, List.find?_cons, qualifiesHuman, h1, h2, h3, h4]

/-- C4: `check_thread_replies` skips the original request message (the
first of the fetched list), the bot's own replies, bot-subtype replies and
empty-text replies, and decides on the first remaining human reply:
`("allow", text)` when the lower-cased stripped text equals an affirmative
keyword or starts with one immediately followed by a space or a comma,
`("deny", text)` for any other such reply, and `(None, None)` when no
qualifying human reply exists. -/
theorem check_thread_replies_first_human (msgs : List SlackMsg) (botId : Option String) :
    check_thread_replies msgs botId =
      match (msgs.drop 1).find? (qualifiesHuman botId) with
      | none => (none, none)
      | some m =>
        if isApprovalText (pyStrip (pyLower (pyStrip m.text))) then
          (some "allow", some (pyStrip m.text))
        else (some "deny", some (pyStrip m.text)) :=
  repliesScan_eq_find botId (msgs.drop 1)

/-! ## Claims about the approval polling loop -/

theorem pollLoop_step_no_decision (botId : Option String) (text : String)
    (sched : Nat → CycleObs) (i fuel : Nat)
    (h : cycleDecides botId (sched i) = false) :
    pollLoop botId text sched i (fuel + 1) = pollLoop botId text sched (i + 1) fuel := by
  simp only [cycleDecides, Bool.or_eq_false_iff] at h
  obtain ⟨⟨⟨h1, h2⟩, h3⟩, h4⟩ := h
  simp [pollLoop, h1, h2, h3, h4]

theorem pollLoop_no_decision (botId : Option String) (text : String)
    (sched : Nat → CycleObs) :
    ∀ fuel i, (∀ j, j < fuel → cycleDecides botId (sched (i + j)) = false) →
      pollLoop botId text sched i fuel =
        (.timedOut,
         [.updateMsg (pyReplace text FOOTER_TEXT ":hourglass: *Waiting for terminal approval...*")]) := by
  intro fuel
  induction fuel with
  | zero => intro i _; rfl
  | succ n ih =>
    intro i h
    rw [pollLoop_step_no_decision botId text sched i n (by simpa using h 0 (Nat.succ_pos n))]
    refine ih (i + 1) fun j hj => ?_
    have := h (j + 1) (Nat.succ_lt_succ hj)
    rwa [show i + (j + 1) = i + 1 + j by omega] at this

theorem pollLoop_effect_shape (botId : Option String) (text : String)
    (sched : Nat → CycleObs) :
    ∀ fuel i,
      ((pollLoop botId text sched i fuel).1 = Outcome.timedOut ∧
       (pollLoop botId text sched i fuel).2 =
         [.updateMsg (pyReplace text FOOTER_TEXT ":hourglass: *Waiting for terminal approval...*")]) ∨
      ((pollLoop botId text sched i fuel).1 ≠ Outcome.timedOut ∧
       ∃ u, (pollLoop botId text sched i fuel).2 = [.updateMsg u, .clearPending]) := by
  intro fuel
  induction fuel with
  | zero => intro i; left; exact ⟨rfl, rfl⟩
  | succ n ih =>
    intro i
    by_cases h1 : (reactionDecision (sched i) == some "allow") = true
    · right; simp [pollLoop, h1]
    · by_cases h2 : (reactionDecision (sched i) == some "deny") = true
      · right; simp [pollLoop, h1, h2]
      · by_cases h3 : ((replyDecision botId (sched i)).1 == some "allow") = true
        · right; simp [pollLoop, h1, h2, h3]
        · by_cases h4 : ((replyDecision botId (sched i)).1 == some "deny") = true
          · right; simp [pollLoop, h1, h2, h3, h4]
          · have hstep : pollLoop botId text sched i (n + 1) =
                pollLoop botId text sched (i + 1) n := by
              simp [pollLoop, h1, h2, h3, h4]
            rw [hstep]
            exact ih (i + 1)

/-- C6: if neither channel produces a decision in any cycle of the
300-second window (polled every 2 seconds, i.e. `TIMEOUT / POLL_INTERVAL`
cycles), the session ends `TimedOut` with exactly the terminal-fallback
status update, and the pending marker is *not* cleared. -/
theorem approval_timeout_keeps_pending (botId : Option String) (text : String)
    (sched : Nat → CycleObs)
    (h : ∀ i, i < numPollCycles → cycleDecides botId (sched i) = false) :
    runApproval botId text sched =
      (.timedOut,
       [.updateMsg (pyReplace text FOOTER_TEXT ":hourglass: *Waiting for terminal approval...*")]) ∧
    Effect.clearPending ∉ (runApproval botId text sched).2 := by
  have hmain : runApproval botId text sched =
      (.timedOut,
       [.updateMsg (pyReplace text FOOTER_TEXT ":hourglass: *Waiting for terminal approval...*")]) :=
    pollLoop_no_decision botId text sched numPollCycles 0 fun j hj => by simpa using h j hj
  refine ⟨hmain, ?_⟩
  rw [hmain]
  simp

/-- Witness for C6: an all-silent schedule times out with the hourglass
rewrite only. -/
theorem approval_timeout_witness :
    runApproval none "x" (fun _ => ⟨some [], some []⟩) =
      (.timedOut,
       [.updateMsg (pyReplace "x" FOOTER_TEXT ":hourglass: *Waiting for terminal approval...*")]) :=
  (approval_timeout_keeps_pending none "x" (fun _ => ⟨some [], some []⟩) fun _ _ => rfl).1

/-- C5 counterexample: the `TimedOut` terminal transition is reached on an
all-silent schedule, performs its status update, and does *not* clear the
durable pending marker — refuting the claim that every terminal transition
(including `TimedOut`) clears it. -/
theorem approval_timeout_does_not_clear_pending :
    (runApproval none "request text" (fun _ => ⟨some [], some []⟩)).1 = Outcome.timedOut ∧
    Effect.clearPending ∉ (runApproval none "request text" (fun _ => ⟨some [], some []⟩)).2 := by
  constructor
  · decide
  · decide

/-- C5 amended: every `Allowed` or `Denied` terminal transition performs
exactly one status update to the posted message followed by clearing the
pending marker, with nothing after (so no strand of the timeout path can
fire once the marker is cleared); the `TimedOut` transition performs
exactly one status update and leaves the pending marker set. -/
theorem approval_terminal_effects (botId : Option String) (text : String)
    (sched : Nat → CycleObs) :
    ((runApproval botId text sched).1 = Outcome.timedOut →
      (runApproval botId text sched).2 =
        [.updateMsg (pyReplace text FOOTER_TEXT ":hourglass: *Waiting for terminal approval...*")]) ∧
    ((runApproval botId text sched).1 ≠ Outcome.timedOut →
      ∃ u, (runApproval botId text sched).2 = [.updateMsg u, .clearPending]) := by
  rcases pollLoop_effect_shape botId text sched numPollCycles 0 with ⟨h1, h2⟩ | ⟨h1, h2⟩
  · exact ⟨fun _ => h2, fun hne => absurd h1 hne⟩
  · exact ⟨fun heq => absurd heq h1, fun _ => h2⟩

/-- Witness for the amended C5: a thumbs-up on the first cycle resolves
`Allowed` with one update then one clear. -/
theorem approval_terminal_effects_witness :
    ∃ u, (runApproval none "t" (fun _ => ⟨some [⟨"+1"⟩], some []⟩)).2 =
      [.updateMsg u, .clearPending] :=
  (approval_terminal_effects none "t" (fun _ => ⟨some [⟨"+1"⟩], some []⟩)).2 (by decide)

/-! ## Claim about dispatcher single-flight -/

theorem dinv_dinit : dinv dinit := by
  refine ⟨rfl, ?_, rfl⟩
  simp [dinit, isInside]

theorem dinv_dstep (s : DispatchState) (who : Bool) (h : dinv s) : dinv (dstep s who) := by
  obtain ⟨h1, h2, h3⟩ := h
  cases who <;> cases ha : s.a <;> cases hb : s.b <;>
    simp_all [dstep, dinv, isInside, invCount]

theorem dinv_foldl : ∀ (sched : List Bool) (s : DispatchState), dinv s →
    dinv (List.foldl dstep s sched) := by
  intro sched
  induction sched with
  | nil => intro s h; exact h
  | cons w rest ih => intro s h; exact ih (dstep s w) (dinv_dstep s w h)

theorem dinv_drun (sched : List Bool) : dinv (drun sched) :=
  dinv_foldl sched dinit dinv_dinit

theorem dstep_b_dropped (s : DispatchState) (who : Bool) (h : s.b = HPhase.dropped) :
    (dstep s who).b = HPhase.dropped := by
  cases who <;> cases ha : s.a <;>
    by_cases hc : s.active = true <;> simp_all [dstep]

theorem foldl_b_dropped : ∀ (sched : List Bool) (s : DispatchState),
    s.b = HPhase.dropped → (List.foldl dstep s sched).b = HPhase.dropped := by
  intro sched
  induction sched with
  | nil => intro s h; exact h
  | cons w rest ih => intro s h; exact ih (dstep s w) (dstep_b_dropped s w h)

/-- C7: the dispatcher never runs two concurrent handlers for one thread
identity.  In the two-event scenario (handler `A` arrived first): in every
interleaving where `B`'s lock-guarded check runs while `A` is still inside
the guarded section, `B` ends `dropped` (not queued), and once `A`
finishes the total number of agent invocations is exactly one; moreover in
every interleaving whatsoever the two handlers are never simultaneously
inside. -/
theorem dispatcher_single_flight (pre post : List Bool)
    (h1 : isInside (drun pre).a = true) (h2 : (drun pre).b = HPhase.ready) :
    (drun (pre ++ false :: post)).b = HPhase.dropped ∧
    ((drun (pre ++ false :: post)).a = HPhase.done →
      (drun (pre ++ false :: post)).invocations = 1) ∧
    ∀ sched : List Bool,
      ¬(isInside (drun sched).a = true ∧ isInside (drun sched).b = true) := by
  have hinv := dinv_drun pre
  have hact : (drun pre).active = true := by
    rw [hinv.1, h1, Bool.true_or]
  have hstep : (dstep (drun pre) false).b = HPhase.dropped := by
    simp [dstep, h2, hact]
  have hdrop : (drun (pre ++ false :: post)).b = HPhase.dropped := by
    show (List.foldl dstep dinit (pre ++ false :: post)).b = HPhase.dropped
    rw [List.foldl_append, List.foldl_cons]
    exact foldl_b_dropped post _ hstep
  refine ⟨hdrop, ?_, ?_⟩
  · intro hdone
    have hinv2 := dinv_drun (pre ++ false :: post)
    rw [hinv2.2.2, hdone, hdrop]
    rfl
  · intro sched hc
    exact (dinv_drun sched).2.1 hc

/-- Witness for C7: `A` enters, `B`'s check runs while `A` is inside, `A`
then invokes and exits — `B` is dropped and one invocation happened. -/
theorem dispatcher_single_flight_witness :
    isInside (drun [true]).a = true ∧ (drun [true]).b = HPhase.ready ∧
    (drun ([true] ++ false :: [true, true])).b = HPhase.dropped ∧
    (drun ([true] ++ false :: [true, true])).invocations = 1 := by
  have h := dispatcher_single_flight [true] [true, true] (by decide) (by decide)
  exact ⟨by decide, by decide, h.1, h.2.1 (by decide)⟩

/-! ## Claims about the session table -/

theorem filter_idem {α : Type} (p : α → Bool) :
    ∀ l : List α, (l.filter p).filter p = l.filter p := by
  intro l
  induction l with
  | nil => rfl
  | cons a t ih => by_cases h : p a = true <;> simp [List.filter_cons, h, ih]

theorem setEntry_filter_idem (p : String × SessionInfo → Bool) (k : String)
    (v : SessionInfo) (hv : p (k, v) = true) :
    ∀ m : Sessions,
      (setEntry ((setEntry m k v).filter p) k v).filter p = (setEntry m k v).filter p := by
  intro m
  induction m with
  | nil => simp [setEntry, List.filter_cons, hv]
  | cons hd rest ih =>
    obtain ⟨k', v'⟩ := hd
    by_cases hk : (k' == k) = true
    · simp [setEntry, hk, List.filter_cons, hv, filter_idem]
    · by_cases hp : p (k', v') = true
      · simpa [setEntry, hk, List.filter_cons, hp] using ih
      · simpa [setEntry, hk, List.filter_cons, hp] using ih

theorem map_fst_touch (k : String) (now : Int) :
    ∀ m : Sessions,
      (m.map fun kv =>
        if kv.1 == k then (kv.1, { kv.2 with last_active := now }) else kv).map Prod.fst =
      m.map Prod.fst := by
  intro m
  induction m with
  | nil => rfl
  | cons hd rest ih =>
    simp only [List.map_cons]
    have h1 : (if (hd.1 == k) = true then (hd.1, { hd.2 with last_active := now }) else hd).1 =
        hd.1 := by
      by_cases h : (hd.1 == k) = true <;> simp [h]
    rw [h1, ih]

/-- C8 counterexample: `touch_session` is a write to the session table
(it updates `last_active` of an existing entry and saves the table), yet
the stale entry `"t0"` — last active at instant `0`, far older than
`SESSION_MAX_AGE` relative to instant `1000000` — survives it.  Eviction
therefore does not happen on every write, refuting the "including via
touch" part of the claim. -/
theorem touch_session_does_not_evict :
    touch_session staleSessions "t1" 1000000 =
      [("t1", ⟨"sid1", "/proj/one", 1000000⟩), ("t0", ⟨"sid0", "/proj/zero", 0⟩)] ∧
    (0 : Int) ≤ 1000000 - SESSION_MAX_AGE := by
  constructor
  · decide
  · decide

/-- C8 amended: `set_session` is idempotent under repeated identical
calls, and every `set_session` write evicts all entries whose
`last_active` is older than `SESSION_MAX_AGE`; `touch_session`, however,
only rewrites the timestamp of an existing entry and performs no eviction
(every key of the table survives it). -/
theorem session_table_write_properties (m : Sessions) (k sid dir : String) (now : Int) :
    set_session (set_session m k sid dir now) k sid dir now = set_session m k sid dir now ∧
    (∀ kv, kv ∈ set_session m k sid dir now → kv.2.last_active > now - SESSION_MAX_AGE) ∧
    (touch_session m k now).map Prod.fst = m.map Prod.fst := by
  refine ⟨?_, ?_, ?_⟩
  · have hv : (fun kv : String × SessionInfo =>
        decide (kv.2.last_active > now - SESSION_MAX_AGE)) (k, ⟨sid, dir, now⟩) = true := by
      simp [SESSION_MAX_AGE]
    exact setEntry_filter_idem _ k ⟨sid, dir, now⟩ hv m
  · intro kv hkv
    have := List.of_mem_filter hkv
    exact of_decide_eq_true this
  · unfold touch_session
    split
    · exact map_fst_touch k now m
    · rfl

/-- Witness for the amended C8 at a concrete table containing a stale
entry. -/
theorem session_table_write_witness :
    set_session (set_session staleSessions "t2" "s2" "/d2" 1000000) "t2" "s2" "/d2" 1000000 =
      set_session staleSessions "t2" "s2" "/d2" 1000000 ∧
    ("t1", (⟨"sid1", "/proj/one", 1000000⟩ : SessionInfo)) ∈
      set_session staleSessions "t2" "s2" "/d2" 1000000 ∧
    (1000000 : Int) > 1000000 - SESSION_MAX_AGE := by
  have h := session_table_write_properties staleSessions "t2" "s2" "/d2" 1000000
  exact ⟨h.1, by decide, h.2.1 ("t1", ⟨"sid1", "/proj/one", 1000000⟩) (by decide)⟩

/-! ## Claim about the continue-session path -/

/-- C9 counterexample: the agent invocation times out — so no new
session-id is obtained — yet `run_claude` hands back the *existing*
session-id, which is truthy, so `_process_message` performs the upsert
branch (`set_session`), not `touch_session`, refuting the claim. -/
theorem run_claude_failure_still_upserts :
    (continue_existing CLIResult.timeoutExpired ⟨"abc", "/proj", 0⟩ "171.1").2 =
      TableOp.upsert "171.1" "abc" "/proj" ∧
    (run_claude CLIResult.timeoutExpired "abc").2 = "abc" :=
  ⟨rfl, rfl⟩

/-- C9 amended: on every failure of the agent invocation (timeout,
missing CLI, other exception, empty stdout, non-JSON stdout) `run_claude`
returns the existing session-id, so the continue path upserts the
existing session (refreshing its timestamp via `set_session`) rather than
touching it; a successful return whose JSON carries a non-empty
session-id upserts that new id; and the touch branch runs exactly when
the returned session-id is empty (an explicitly empty/null `session_id`
in the agent's JSON, or an empty stored id). -/
theorem continue_existing_upsert_touch (info : SessionInfo) (tts : String)
    (hid : info.session_id ≠ "") :
    (∀ m, (continue_existing (.raisedExc m) info tts).2 =
      TableOp.upsert tts info.session_id info.project_dir) ∧
    (continue_existing .timeoutExpired info tts).2 =
      TableOp.upsert tts info.session_id info.project_dir ∧
    (continue_existing .fileNotFound info tts).2 =
      TableOp.upsert tts info.session_id info.project_dir ∧
    (∀ stdout stderr parsed, pyStrip stdout = "" →
      (continue_existing (.ran stdout stderr parsed) info tts).2 =
        TableOp.upsert tts info.session_id info.project_dir) ∧
    (∀ stdout stderr, pyStrip stdout ≠ "" →
      (continue_existing (.ran stdout stderr none) info tts).2 =
        TableOp.upsert tts info.session_id info.project_dir) ∧
    (∀ stdout stderr o nsid, pyStrip stdout ≠ "" → o.session_id = some nsid → nsid ≠ "" →
      (continue_existing (.ran stdout stderr (some o)) info tts).2 =
        TableOp.upsert tts nsid info.project_dir) ∧
    (∀ res, (continue_existing res info tts).2 = TableOp.touch tts ↔
      (run_claude res info.session_id).2 = "") := by
  refine ⟨?_, ?_, ?_, ?_, ?_, ?_, ?_⟩
  · intro m; simp [continue_existing, run_claude, hid]
  · simp [continue_existing, run_claude, hid]
  · simp [continue_existing, run_claude, hid]
  · intro stdout stderr parsed hso
    have h2 : (run_claude (.ran stdout stderr parsed) info.session_id).2 = info.session_id := by
      simp only [run_claude, hso, beq_self_eq_true, if_true]
      split <;> rfl
    simp [continue_existing, h2, hid]
  · intro stdout stderr hso
    simp [continue_existing, run_claude, hso, hid]
  · intro stdout stderr o nsid hso ho hn
    simp [continue_existing, run_claude, hso, ho, hn]
  · intro res
    by_cases h : (run_claude res info.session_id).2 = "" <;>
      simp [continue_existing, h]

/-- Witness for the amended C9: a missing-CLI failure on a stored session
with id `"abc"` upserts `"abc"` again. -/
theorem continue_existing_witness :
    ((⟨"abc", "/p", 5⟩ : SessionInfo).session_id ≠ "") ∧
    (continue_existing CLIResult.fileNotFound ⟨"abc", "/p", 5⟩ "tt").2 =
      TableOp.upsert "tt" "abc" "/p" := by
  have h := continue_existing_upsert_touch ⟨"abc", "/p", 5⟩ "tt" (by decide)
  exact ⟨by decide, h.2.2.1⟩
